import Mathlib

/-
Formal model of the single-file Streamlit application
`src/AGISplatform2222025.py` (Geospatial Enterprise Solution).

The development shallowly embeds the data-handling logic of the script:

* pandas cells and `pd.to_numeric(errors="coerce")`;
* the point-CSV loader `load_points_from_github` (lines 100-114);
* the SE polygon loader row filter of `load_se_data` (lines 71-86);
* the sidebar hierarchical attribute filters (lines 148-160);
* the defensive spatial join `safe_sjoin` (lines 128-137);
* the top-level control flow from the two remote loads to map rendering
  (lines 88-92, 119-123, 165-201);
* the drawn-shape handlers for markers and polygons (lines 234-274).

Geometry is modeled for the class of convex polygons with vertices listed in
counter-clockwise order, on which the shapely predicates `intersects`
(boundary-inclusive) and `within` (boundary-exclusive, for a point argument)
have an exact rational-arithmetic description via edge cross products.
Coordinates are rational numbers.
-/

namespace AGIS

/-! ## Cells and numeric coercion (pandas) -/

/-- A cell of a pandas column: a string, a number, or a missing value (NaN/null). -/
inductive Cell where
  | str (s : String)
  | num (q : ℚ)
  | null
deriving DecidableEq

/-- Whether a cell already holds a numeric value. -/
def Cell.isNum : Cell → Bool
  | .num _ => true
  | _ => false

/-- Parse a non-empty run of decimal digits as a natural number. -/
def parseNatDigits (cs : List Char) : Option Nat :=
  if cs ≠ [] ∧ cs.all Char.isDigit then
    some (cs.foldl (fun a c => a * 10 + (c.toNat - 48)) 0)
  else none

/-- Parse an unsigned decimal literal (`"10"`, `"10.1"`) as a rational. -/
def parseUnsignedQ (cs : List Char) : Option ℚ :=
  let intP := cs.takeWhile (· ≠ '.')
  match cs.dropWhile (· ≠ '.') with
  | [] => (parseNatDigits intP).map (fun n => (n : ℚ))
  | '.' :: frac =>
      match parseNatDigits intP, parseNatDigits frac with
      | some n, some f => some ((n : ℚ) + (f : ℚ) / ((10 : ℚ) ^ frac.length))
      | _, _ => none
  | _ => none

/-- Parse an optionally negated decimal literal as a rational. -/
def parseDecimalQ (s : String) : Option ℚ :=
  match s.toList with
  | '-' :: rest => (parseUnsignedQ rest).map (fun q => -q)
  | cs => parseUnsignedQ cs

/-- Model of `pd.to_numeric(x, errors="coerce")` on one cell: numbers pass
through unchanged, strings that read as decimal literals are parsed, and
anything else becomes a missing value. -/
def to_numeric_cell : Cell → Cell
  | .num q => .num q
  | .null => .null
  | .str s =>
      match parseDecimalQ s with
      | some q => .num q
      | none => .null

/-- `pd.to_numeric(errors="coerce")` applied to a whole column, as in
`df["LAT"] = pd.to_numeric(df["LAT"], errors="coerce")` (lines 105-106). -/
def to_numeric_col (l : List Cell) : List Cell := l.map to_numeric_cell

/-! ## The point CSV and the point loader (lines 100-114) -/

/-- A fetched CSV table: its column names and its rows, each row a list of
cells aligned with the column list. -/
structure CSV where
  cols : List String
  rows : List (List Cell)
deriving DecidableEq

/-- The cell of one row sitting under the named column. -/
def cellAt (cols : List String) (r : List Cell) (name : String) : Cell :=
  r.getD (cols.indexOf name) Cell.null

/-- Replace the cell of one row under the named column. -/
def setCellAt (cols : List String) (r : List Cell) (name : String) (c : Cell) : List Cell :=
  r.set (cols.indexOf name) c

/-- The contents of one named column, as in `df["LAT"]`. -/
def CSV.col (c : CSV) (name : String) : List Cell :=
  c.rows.map (fun r => cellAt c.cols r name)

/-- One row of the loaded points GeoDataFrame: the numeric coordinates, the
constructed point geometry `(x, y) = (lon, lat)` from
`gpd.points_from_xy(df["LON"], df["LAT"])`, and the full attribute row with
the LAT/LON cells replaced by their coerced numeric values. -/
structure PointRow where
  lat : ℚ
  lon : ℚ
  geometry : ℚ × ℚ
  cells : List Cell
deriving DecidableEq

/-- The GeoDataFrame produced by the point loader. -/
structure PointsGDF where
  cols : List String
  rows : List PointRow
  crs : String
deriving DecidableEq

/-- Model of `load_points_from_github` (lines 100-114). The input `none`
models a fetch or parse failure of `pd.read_csv` (the bare `except` returns
`None`); a present table missing either of the LAT/LON columns returns `None`
as well. Otherwise both coordinate columns are coerced to numeric
column-wise, rows with a missing coordinate are dropped
(`df.dropna(subset=["LAT","LON"])`), and each surviving row gets a point
geometry at `(lon, lat)` with CRS EPSG:4326. -/
def load_points_from_github (input : Option CSV) : Option PointsGDF :=
  match input with
  | none => none
  | some df =>
      if "LAT" ∈ df.cols ∧ "LON" ∈ df.cols then
        let latN := to_numeric_col (df.col "LAT")
        let lonN := to_numeric_col (df.col "LON")
        let kept := (df.rows.zip (latN.zip lonN)).filterMap (fun rl =>
          match rl.2.1, rl.2.2 with
          | Cell.num a, Cell.num b =>
              some { lat := a, lon := b, geometry := (b, a),
                     cells := setCellAt df.cols
                       (setCellAt df.cols rl.1 "LAT" (Cell.num a)) "LON" (Cell.num b) }
          | _, _ => none)
        some { cols := df.cols, rows := kept, crs := "EPSG:4326" }
      else none

/-- The row-wise outcome of the loader on one CSV row: kept with its
coordinates and geometry when both LAT and LON coerce to numbers, dropped
otherwise. -/
def load_point_row (cols : List String) (r : List Cell) : Option PointRow :=
  match to_numeric_cell (cellAt cols r "LAT"), to_numeric_cell (cellAt cols r "LON") with
  | Cell.num a, Cell.num b =>
      some { lat := a, lon := b, geometry := (b, a),
             cells := setCellAt cols (setCellAt cols r "LAT" (Cell.num a)) "LON" (Cell.num b) }
  | _, _ => none

/-! ## Geometry: convex polygons with rational coordinates -/

/-- A point of the plane with rational coordinates; the first component is
the x (longitude) coordinate, the second the y (latitude) coordinate. -/
abbrev Pt := ℚ × ℚ

/-- The 2D cross product of the vectors `o → a` and `o → b`. -/
def cross (o a b : Pt) : ℚ :=
  (a.1 - o.1) * (b.2 - o.2) - (a.2 - o.2) * (b.1 - o.1)

/-- A convex polygon given by its vertices in counter-clockwise order. This
models the shapely polygon geometry restricted to the class of convex rings,
on which the point predicates used by the script are exact rational
arithmetic. -/
structure CPoly where
  verts : List Pt
deriving DecidableEq

/-- The directed edge list of a polygon, closing back to the first vertex. -/
def CPoly.edges (P : CPoly) : List (Pt × Pt) :=
  match P.verts with
  | [] => []
  | v :: vs => P.verts.zip (vs ++ [v])

/-- Boundary-inclusive point-in-polygon membership: the model of the
shapely/geopandas `intersects` predicate between a point and a convex CCW
polygon (the point lies in the closed region). -/
def intersectsPt (P : CPoly) (p : Pt) : Bool :=
  P.edges.all (fun e => 0 ≤ cross e.1 e.2 p)

/-- Boundary-exclusive point-in-polygon membership: the model of the shapely
`within` predicate for a point against a convex CCW polygon (the point lies
strictly inside; a point on the boundary is not within). -/
def withinPt (P : CPoly) (p : Pt) : Bool :=
  P.edges.all (fun e => 0 < cross e.1 e.2 p)

/-! ## SE polygon rows and the polygon loader (lines 71-86) -/

/-- One row of the SE polygon layer after the column normalization of
`load_se_data` (lower-cased names, `lregion`/`lcercle`/`lcommune` renamed,
missing attribute columns defaulted): the four hierarchy attributes as
nullable text, the two population attributes, the polygon geometry, and the
validity/emptiness of the geometry as reported by the geometry library
(`gdf.is_valid`, `gdf.is_empty`). -/
structure SERow where
  region : Option String
  cercle : Option String
  commune : Option String
  idse_new : Option String
  pop_se : ℚ
  pop_se_ct : ℚ
  geom : CPoly
  is_valid : Bool
  is_empty : Bool
deriving DecidableEq

/-- The row-filtering step of `load_se_data` (line 79):
`gdf = gdf[gdf.is_valid & ~gdf.is_empty]` keeps exactly the rows whose
geometry is valid and non-empty. -/
def load_se_data_rows (rows : List SERow) : List SERow :=
  rows.filter (fun r => r.is_valid && !r.is_empty)

/-! ## Sidebar hierarchical filters (lines 148-160) -/

/-- Model of `sorted(series.dropna().unique())`: the distinct non-null
values of a column, in ascending order. `insertionSort` models the Python
`sorted` builtin. -/
def sorted_unique_dropna (l : List (Option String)) : List String :=
  ((l.filterMap id).dedup).insertionSort (· ≤ ·)

/-- The Region candidate list (line 149). -/
def region_options (rows : List SERow) : List String :=
  sorted_unique_dropna (rows.map (·.region))

/-- Line 150: `gdf_r = gdf[gdf["region"] == region]`. A null cell never
equals the chosen value, matching pandas equality against NaN. -/
def filter_by_region (rows : List SERow) (rv : String) : List SERow :=
  rows.filter (fun r => r.region == some rv)

/-- The Cercle candidate list (line 152), computed from the region-filtered
subset. -/
def cercle_options (rows : List SERow) (rv : String) : List String :=
  sorted_unique_dropna ((filter_by_region rows rv).map (·.cercle))

/-- Line 153: `gdf_c = gdf_r[gdf_r["cercle"] == cercle]`. -/
def filter_by_cercle (rows : List SERow) (rv cv : String) : List SERow :=
  (filter_by_region rows rv).filter (fun r => r.cercle == some cv)

/-- The Commune candidate list (line 155), computed from the cercle-filtered
subset. -/
def commune_options (rows : List SERow) (rv cv : String) : List String :=
  sorted_unique_dropna ((filter_by_cercle rows rv cv).map (·.commune))

/-- Line 156: `gdf_commune = gdf_c[gdf_c["commune"] == commune]`. -/
def filter_by_commune (rows : List SERow) (rv cv mv : String) : List SERow :=
  (filter_by_cercle rows rv cv).filter (fun r => r.commune == some mv)

/-- The Unit_Geo candidate list (line 158):
`idse_list = ["No filter"] + sorted(gdf_commune["idse_new"].dropna().unique())`.
The sentinel is prepended to the sorted distinct unit identifiers of the
commune-filtered subset. -/
def idse_options (rows : List SERow) (rv cv mv : String) : List String :=
  "No filter" :: sorted_unique_dropna ((filter_by_commune rows rv cv mv).map (·.idse_new))

/-- Line 160: the working subset is the commune-filtered subset when the
sentinel is chosen, and an exact match on `idse_new` otherwise. -/
def filter_by_idse (rows : List SERow) (rv cv mv sel : String) : List SERow :=
  if sel = "No filter" then filter_by_commune rows rv cv mv
  else (filter_by_commune rows rv cv mv).filter (fun r => r.idse_new == some sel)

/-! ## The defensive spatial join safe_sjoin (lines 128-137) -/

/-- The SE polygon GeoDataFrame handed to the spatial join: column names and
rows. -/
structure SEFrame where
  cols : List String
  rows : List SERow
deriving DecidableEq

/-- The frame returned by `safe_sjoin`: column names, an optional CRS, and
the joined rows, each a point row paired with the matched polygon row. -/
structure JoinFrame where
  cols : List String
  crs : Option String
  rows : List (PointRow × SERow)
deriving DecidableEq

/-- The geometric predicate selected by the `predicate` string argument of
`gpd.sjoin`. -/
def sjoin_pred (predicate : String) : CPoly → Pt → Bool :=
  if predicate = "within" then withinPt else intersectsPt

/-- Model of `gpd.sjoin(points, polygons, how="inner", predicate=...)`: each
point row is paired with every polygon row whose geometry satisfies the
predicate against the point geometry; unmatched points are dropped. -/
def gpd_sjoin (points : PointsGDF) (polygons : SEFrame) (predicate : String) :
    List (PointRow × SERow) :=
  points.rows.flatMap (fun p =>
    (polygons.rows.filter (fun g => sjoin_pred predicate g.geom p.geometry)).map
      (fun g => (p, g)))

/-- The column-drop step of `safe_sjoin` (lines 134-136): any `index_right`
or `_r` column of the polygon frame is removed before joining. -/
def drop_join_cols (cols : List String) : List String :=
  cols.filter (fun c => !(c == "index_right" || c == "_r"))

/-- Model of `safe_sjoin` (lines 128-137). When either frame is `None` or
empty, an empty GeoDataFrame is returned carrying the point-frame columns
and CRS when the point frame is present and no columns otherwise; the
Python default arguments are `how="inner"` and `predicate="intersects"`. -/
def safe_sjoin (points : Option PointsGDF) (polygons : Option SEFrame)
    (predicate : String) : JoinFrame :=
  match points, polygons with
  | none, _ => { cols := [], crs := none, rows := [] }
  | some ps, none => { cols := ps.cols, crs := some ps.crs, rows := [] }
  | some ps, some gs =>
      if ps.rows = [] ∨ gs.rows = [] then
        { cols := ps.cols, crs := some ps.crs, rows := [] }
      else
        { cols := ps.cols ++ drop_join_cols gs.cols,
          crs := some ps.crs,
          rows := gpd_sjoin ps { gs with cols := drop_join_cols gs.cols } predicate }

/-- Sum of a numeric attribute over the rows of a join result, the shape of
the demographic-column aggregations performed on joined frames. -/
def frame_sum (f : JoinFrame) (g : PointRow × SERow → ℚ) : ℚ :=
  (f.rows.map g).sum

/-! ## Top-level flow: loads, halt policy, and map rendering -/

/-- POINTS SOURCE LOGIC (lines 119-123): reuse the session table when it is
present, otherwise load from the fetched remote CSV. -/
def points_source (sess : Option PointsGDF) (fetched : Option CSV) : Option PointsGDF :=
  match sess with
  | some p => some p
  | none => load_points_from_github fetched

/-- The user-observable outcome of one run of the script body. -/
structure RenderOutcome where
  error_shown : Bool
  halted : Bool
  map_rendered : Bool
  points_layer_shown : Bool
deriving DecidableEq

/-- Model of the top-level flow from the data loads to the map (lines 88-92,
119-123, 165-201). A failure of `load_se_data` (input `none`, modeling a
raised exception) shows `st.error` and calls `st.stop`. Otherwise the points
table is resolved through `points_source`, the map is always rendered, and
the Concession Points layer receives markers only when the points table is
present (`if points_to_plot is not None`, line 191); a `None` points table
draws no error and does not halt. -/
def render_flow (se : Option (List SERow)) (sess : Option PointsGDF)
    (fetched : Option CSV) : RenderOutcome :=
  match se with
  | none =>
      { error_shown := true, halted := true,
        map_rendered := false, points_layer_shown := false }
  | some _ =>
      { error_shown := false, halted := false,
        map_rendered := true,
        points_layer_shown := (points_source sess fetched).isSome }

/-! ## Drawn shapes: markers and polygons (lines 234-274) -/

/-- The geometry of a GeoJSON feature delivered by the draw plugin: a point
with coordinates `(x, y) = (lon, lat)`, or a (multi)polygon. The script only
dispatches on the GeoJSON `type` tag being `Point` or in
`["Polygon", "MultiPolygon"]`. -/
inductive FGeom where
  | pointGeom (x y : ℚ)
  | polygonGeom (p : CPoly)
deriving DecidableEq

/-- A feature of `map_data["all_drawings"]`: its geometry and the optional
`id` entry of its `properties`. -/
structure Feature where
  geom : FGeom
  props_id : Option Nat
deriving DecidableEq

/-- One row of the session markers table
(columns `Latitude`, `Longitude`, `Label`). -/
structure MarkerRow where
  latitude : ℚ
  longitude : ℚ
  label : String
deriving DecidableEq

/-- HANDLE MARKERS (lines 234-244): each drawn Point feature is appended to
the markers table unless a row with the same latitude/longitude pair is
already present (`shape(...).y` is the latitude and `.x` the longitude); the
new row gets an empty label. -/
def handle_markers (df0 : List MarkerRow) (all_drawings : List Feature) : List MarkerRow :=
  all_drawings.foldl (fun df f =>
    match f.geom with
    | .pointGeom x y =>
        if df.any (fun m => m.latitude == y && m.longitude == x) then df
        else df ++ [{ latitude := y, longitude := x, label := "" }]
    | _ => df) df0

/-- One row of the session polygons table
(columns `Polygon #`, `Total Points`, `Label`); the table stores no
geometry. -/
structure PolyTableRow where
  polygon_num : Nat
  total_points : Nat
  label : String
deriving DecidableEq

/-- The loop body of HANDLE POLYGONS, threading the table and the running
counter through the feature list. For each (multi)polygon feature the
existence test (line 262) asks whether the `id` of the feature properties —
defaulting to the current counter value when absent — occurs in the
`Polygon #` column; the drawn geometry is never compared. When the feature
is not skipped, line 265 evaluates `points_gdf.geometry.within(geom)`:
if the points table is `None` this raises an `AttributeError` (modeled as
`.error`), otherwise the count of points strictly within the drawn geometry
is recorded and the counter advances. -/
def handle_polygons_go (points : Option (List PointRow)) :
    List Feature → List PolyTableRow → Nat → Except String (List PolyTableRow)
  | [], df, _ => .ok df
  | f :: fs, df, ctr =>
      match f.geom with
      | .polygonGeom g =>
          if df.any (fun r => r.polygon_num == f.props_id.getD ctr) then
            handle_polygons_go points fs df ctr
          else
            match points with
            | none => .error "AttributeError: NoneType has no attribute geometry"
            | some ps =>
                handle_polygons_go points fs
                  (df ++ [{ polygon_num := ctr,
                            total_points :=
                              (ps.filter (fun p => withinPt g p.geometry)).length,
                            label := "" }])
                  (ctr + 1)
      | _ => handle_polygons_go points fs df ctr

/-- HANDLE POLYGONS (lines 256-274): the counter starts at
`len(st.session_state.polygons_df) + 1` and the feature list is folded
through the loop body. -/
def handle_polygons (df0 : List PolyTableRow) (points : Option (List PointRow))
    (all_drawings : List Feature) : Except String (List PolyTableRow) :=
  handle_polygons_go points all_drawings df0 (df0.length + 1)

/-! ## Concrete sample data used by the closed statements -/

/-- The unit square, counter-clockwise. -/
def unitSquare : CPoly := ⟨[(0, 0), (1, 0), (1, 1), (0, 1)]⟩

/-- A drawn GeoJSON feature carrying the unit square and, as is the case for
shapes drawn with the Leaflet Draw toolbar, no `id` entry in its
properties. -/
def sqFeature : Feature := { geom := .polygonGeom unitSquare, props_id := none }

/-- A sample SE polygon row. -/
def seRowA : SERow :=
  { region := some "R1", cercle := some "C1", commune := some "M1",
    idse_new := some "A", pop_se := 10, pop_se_ct := 12,
    geom := unitSquare, is_valid := true, is_empty := false }

/-- A sample points GeoDataFrame with a single point. -/
def samplePoints : PointsGDF :=
  { cols := ["LAT", "LON"],
    rows := [{ lat := 1, lon := 2, geometry := (2, 1),
               cells := [Cell.num 1, Cell.num 2] }],
    crs := "EPSG:4326" }

/-- An SE polygon frame with no rows. -/
def emptySEFrame : SEFrame := { cols := ["region", "geometry"], rows := [] }

/-- The CSV of the point-loader example: LAT = ["10.1", "bad", "10.3"] and
LON = ["-5.1", "-5.2", "-5.3"]. -/
def exampleCSV : CSV :=
  { cols := ["LAT", "LON"],
    rows := [[Cell.str "10.1", Cell.str "-5.1"],
             [Cell.str "bad", Cell.str "-5.2"],
             [Cell.str "10.3", Cell.str "-5.3"]] }

/-- A points GeoDataFrame with no rows. -/
def emptyPointsGDF : PointsGDF := { cols := ["LAT", "LON"], rows := [], crs := "EPSG:4326" }

/-- A sample SE polygon row whose geometry the library reports as invalid. -/
def seRowBad : SERow :=
  { region := some "R1", cercle := some "C1", commune := some "M1",
    idse_new := some "B", pop_se := 3, pop_se_ct := 4,
    geom := unitSquare, is_valid := false, is_empty := false }

/-- A fetched CSV that has a LAT column but no LON column. -/
def noLonCSV : CSV := { cols := ["LAT"], rows := [[Cell.str "10.1"]] }

/-! ## Helper lemmas -/

/-- The column-wise coercion and row-drop of the point loader agree with the
row-wise description `load_point_row`. -/
theorem load_points_rows_eq (cols : List String) (rows : List (List Cell)) :
    ((rows.zip ((to_numeric_col (rows.map (fun r => cellAt cols r "LAT"))).zip
        (to_numeric_col (rows.map (fun r => cellAt cols r "LON"))))).filterMap (fun rl =>
          match rl.2.1, rl.2.2 with
          | Cell.num a, Cell.num b =>
              some { lat := a, lon := b, geometry := (b, a),
                     cells := setCellAt cols
                       (setCellAt cols rl.1 "LAT" (Cell.num a)) "LON" (Cell.num b) }
          | _, _ => none))
      = rows.filterMap (load_point_row cols) := by
  induction rows with
  | nil => rfl
  | cons r rs ih =>
      simp only [List.map_cons, to_numeric_col, List.zip_cons_cons, List.filterMap_cons] at ih ⊢
      rw [ih]
      rfl

/-- Length of a filtered list, expressed as the original length minus the
count of rejected elements. -/
theorem length_filter_sub {α : Type} (p : α → Bool) (l : List α) :
    (l.filter p).length = l.length - l.countP (fun a => !p a) := by
  induction l with
  | nil => rfl
  | cons a l ih =>
      have hle : l.countP (fun a => !p a) ≤ l.length := l.countP_le_length _
      by_cases h : p a = true
      · rw [List.filter_cons_of_pos h, List.length_cons, List.length_cons, List.countP_cons]
        simp only [h, ih]
        simp only [Bool.not_true, Bool.false_eq_true, if_false]
        omega
      · rw [List.filter_cons_of_neg (by simpa using h), List.length_cons, List.countP_cons]
        simp only [Bool.not_eq_true] at h
        simp only [h, ih]
        simp only [Bool.not_false, if_true]
        omega

/-- The sorted-distinct-values helper is sorted. -/
theorem sud_sorted (l : List (Option String)) :
    (sorted_unique_dropna l).Sorted (· ≤ ·) :=
  List.sorted_insertionSort _ _

/-- The sorted-distinct-values helper has no duplicates. -/
theorem sud_nodup (l : List (Option String)) : (sorted_unique_dropna l).Nodup :=
  ((List.perm_insertionSort _ _).nodup_iff).mpr (List.nodup_dedup _)

/-- Membership in the sorted-distinct-values helper is membership of the
non-null value in the column. -/
theorem sud_mem (l : List (Option String)) (x : String) :
    x ∈ sorted_unique_dropna l ↔ some x ∈ l := by
  rw [sorted_unique_dropna, (List.perm_insertionSort _ _).mem_iff, List.mem_dedup]
  simp [List.mem_filterMap]

/-- Membership in the region-filtered subset. -/
theorem mem_filter_by_region (rows : List SERow) (rv : String) (r : SERow) :
    r ∈ filter_by_region rows rv ↔ r ∈ rows ∧ r.region = some rv := by
  simp [filter_by_region, List.mem_filter]

/-- Membership in the cercle-filtered subset. -/
theorem mem_filter_by_cercle (rows : List SERow) (rv cv : String) (r : SERow) :
    r ∈ filter_by_cercle rows rv cv ↔
      r ∈ rows ∧ r.region = some rv ∧ r.cercle = some cv := by
  simp [filter_by_cercle, List.mem_filter, mem_filter_by_region, and_assoc]

/-- Membership in the commune-filtered subset. -/
theorem mem_filter_by_commune (rows : List SERow) (rv cv mv : String) (r : SERow) :
    r ∈ filter_by_commune rows rv cv mv ↔
      r ∈ rows ∧ r.region = some rv ∧ r.cercle = some cv ∧ r.commune = some mv := by
  simp [filter_by_commune, List.mem_filter, mem_filter_by_cercle, and_assoc]

/-- Membership in the rows of a non-degenerate safe_sjoin result: exactly
the point/polygon pairs satisfying the selected geometric predicate. -/
theorem mem_safe_sjoin_rows (ps : PointsGDF) (gs : SEFrame) (pred : String)
    (pr : PointRow × SERow) :
    pr ∈ (safe_sjoin (some ps) (some gs) pred).rows ↔
      (pr.1 ∈ ps.rows ∧ pr.2 ∈ gs.rows ∧ sjoin_pred pred pr.2.geom pr.1.geometry = true) := by
  by_cases h : ps.rows = [] ∨ gs.rows = []
  · rcases h with h | h <;> simp [safe_sjoin, h]
  · simp only [safe_sjoin]
    rw [if_neg h]
    simp only [gpd_sjoin, List.mem_flatMap, List.mem_map, List.mem_filter]
    constructor
    · rintro ⟨p, hp, g, ⟨hg, hpred⟩, rfl⟩
      exact ⟨hp, hg, hpred⟩
    · rintro ⟨hp, hg, hpred⟩
      exact ⟨pr.1, hp, pr.2, ⟨hg, hpred⟩, rfl⟩

/-! ## Claim theorems -/

/-- C1: the polygon-shape handler does not deduplicate by geometry. The
existence test of line 262 compares the feature `id` property (defaulting to
the fresh counter value) against the `Polygon #` column, so submitting the
identical polygon geometry twice — two unit-square features, neither
carrying an `id`, against an initially empty table — appends two rows, where
the claimed geometry-based deduplication would leave exactly one. -/
theorem c1_same_polygon_twice_two_rows :
    handle_polygons [] (some []) [sqFeature, sqFeature] =
      Except.ok [{ polygon_num := 1, total_points := 0, label := "" },
                 { polygon_num := 2, total_points := 0, label := "" }] := rfl

/-- C2 counterexample: with the SE polygon table loaded and the point CSV
fetch failing (input `none`), the script surfaces no error, does not halt,
and still renders the map — only without the Concession Points layer
contents. This refutes the claim that a point-source failure surfaces an
error and halts, and that no map is rendered when the point table failed to
load. -/
theorem c2_counterexample_point_failure_renders :
    render_flow (some [seRowA]) none none =
      { error_shown := false, halted := false,
        map_rendered := true, points_layer_shown := false } := rfl

/-- C2 amended: a fetch or parse failure of the SE polygon GeoJSON surfaces
a user-visible error and halts; a failure of the point CSV is silent — the
loader yields `None`, the run continues, and the map is rendered with the
points layer left empty. Only the polygon table is a hard stop. -/
theorem c2_amended_halt_policy :
    (∀ sess fetched, render_flow none sess fetched =
        { error_shown := true, halted := true,
          map_rendered := false, points_layer_shown := false }) ∧
    (∀ se sess fetched, render_flow (some se) sess fetched =
        { error_shown := false, halted := false, map_rendered := true,
          points_layer_shown := (points_source sess fetched).isSome }) ∧
    (∀ se fetched, load_points_from_github fetched = none →
        render_flow (some se) none fetched =
          { error_shown := false, halted := false,
            map_rendered := true, points_layer_shown := false }) := by
  refine ⟨fun _ _ => rfl, fun _ _ _ => rfl, fun se fetched h => ?_⟩
  simp [render_flow, points_source, h]

/-- Witness for the C2 amended theorem at a concrete input: the point fetch
fails, the map is rendered without error. -/
theorem c2_amended_witness :
    render_flow (some [seRowA]) none none =
      { error_shown := false, halted := false,
        map_rendered := true, points_layer_shown := false } :=
  c2_amended_halt_policy.2.2 [seRowA] none rfl

/-- C3 counterexample: the drawn-polygon point-count path of line 265 does
not go through safe_sjoin; when the point table is absent (the loader
returned `None`) and a polygon is drawn, `points_gdf.geometry` raises an
AttributeError instead of producing an empty result. -/
theorem c3_counterexample_count_path_raises :
    handle_polygons [] none [sqFeature] =
      Except.error "AttributeError: NoneType has no attribute geometry" := rfl

/-- C3 amended: safe_sjoin on an empty or absent input returns an empty
frame — with the point-table columns and CRS when the point table is
present, and with no columns when it is absent — and every aggregate sum
over the result is zero; the drawn-polygon count returns 0 on an empty
point table; but when the point table is absent the drawn-polygon path
(which bypasses safe_sjoin) raises. -/
theorem c3_amended_degenerate_inputs :
    (∀ ps gs pred, ps.rows = [] ∨ gs.rows = [] →
        safe_sjoin (some ps) (some gs) pred =
          { cols := ps.cols, crs := some ps.crs, rows := [] }) ∧
    (∀ ps pred, safe_sjoin (some ps) none pred =
        { cols := ps.cols, crs := some ps.crs, rows := [] }) ∧
    (∀ polys pred, safe_sjoin none polys pred = { cols := [], crs := none, rows := [] }) ∧
    (∀ ps gs pred f, ps.rows = [] ∨ gs.rows = [] →
        frame_sum (safe_sjoin (some ps) (some gs) pred) f = 0) ∧
    (∀ points pred f, frame_sum (safe_sjoin points none pred) f = 0) ∧
    (∀ polys pred f, frame_sum (safe_sjoin none polys pred) f = 0) ∧
    (∀ g, handle_polygons [] (some []) [{ geom := .polygonGeom g, props_id := none }] =
        Except.ok [{ polygon_num := 1, total_points := 0, label := "" }]) ∧
    (handle_polygons [] none [sqFeature] =
        Except.error "AttributeError: NoneType has no attribute geometry") := by
  refine ⟨fun ps gs pred h => ?_, fun _ _ => rfl, fun polys _ => ?_,
          fun ps gs pred f h => ?_, fun points _ f => ?_, fun polys _ f => ?_,
          fun g => rfl, rfl⟩
  · simp only [safe_sjoin]
    rw [if_pos h]
  · cases polys <;> rfl
  · simp only [safe_sjoin]
    rw [if_pos h]
    rfl
  · cases points <;> rfl
  · cases polys <;> rfl

/-- Witness for the C3 amended theorem: a present-but-empty point table
joined against a one-row polygon frame gives the empty frame with the
point-table columns. -/
theorem c3_amended_witness :
    safe_sjoin (some emptyPointsGDF) (some { cols := ["region"], rows := [seRowA] })
        "intersects" =
      { cols := ["LAT", "LON"], crs := some "EPSG:4326", rows := [] } :=
  c3_amended_degenerate_inputs.1 emptyPointsGDF
    { cols := ["region"], rows := [seRowA] } "intersects" (Or.inl rfl)

/-- C4: membership of a point in a user-drawn polygon is decided by the
strict, boundary-exclusive `within` predicate (the count recorded for a
fresh drawn polygon is the number of points strictly inside), while
safe_sjoin with the default `predicate="intersects"` pairs points and
polygons by boundary-inclusive intersection; the two predicates are
distinct — a polygon-boundary point intersects but is not within. -/
theorem c4_two_containment_predicates :
    (∀ ps g, handle_polygons [] (some ps) [{ geom := .polygonGeom g, props_id := none }] =
        Except.ok [{ polygon_num := 1,
                     total_points := (ps.filter (fun p => withinPt g p.geometry)).length,
                     label := "" }]) ∧
    (∀ ps gs pr, pr ∈ (safe_sjoin (some ps) (some gs) "intersects").rows ↔
        (pr.1 ∈ ps.rows ∧ pr.2 ∈ gs.rows ∧ intersectsPt pr.2.geom pr.1.geometry = true)) ∧
    (sjoin_pred "intersects" = intersectsPt ∧ sjoin_pred "within" = withinPt) ∧
    (intersectsPt unitSquare (0, 0) = true ∧ withinPt unitSquare (0, 0) = false) := by
  refine ⟨fun ps g => rfl, fun ps gs pr => mem_safe_sjoin_rows ps gs "intersects" pr,
          ⟨rfl, rfl⟩, ?_, ?_⟩
  · norm_num [intersectsPt, unitSquare, CPoly.edges, cross]
  · norm_num [withinPt, unitSquare, CPoly.edges, cross]

/-- C5 counterexample: for a table whose maximally filtered subset has the
single unit identifier "A", the Unit_Geo candidate list is
`["No filter", "A"]` — it contains the sentinel `"No filter"`, which is not
a value present among the commune-filtered rows, refuting the claim that
each level's list contains only values present in the filtered subset. -/
theorem c5_counterexample_sentinel :
    idse_options [seRowA] "R1" "C1" "M1" = ["No filter", "A"] ∧
    (∀ r ∈ filter_by_commune [seRowA] "R1" "C1" "M1", r.idse_new ≠ some "No filter") := by
  decide

/-- C5 amended: the cercle and commune candidate lists are the sorted,
duplicate-free, null-free values present in the subset filtered by all
previous choices — never the full table; the Unit_Geo list is the sentinel
`"No filter"` prepended to such a list for the commune-filtered subset. -/
theorem c5_amended_hierarchical_options :
    (∀ rows rv, (cercle_options rows rv).Sorted (· ≤ ·) ∧ (cercle_options rows rv).Nodup ∧
        (∀ c, c ∈ cercle_options rows rv ↔
          ∃ r ∈ rows, r.region = some rv ∧ r.cercle = some c)) ∧
    (∀ rows rv cv, (commune_options rows rv cv).Sorted (· ≤ ·) ∧
        (commune_options rows rv cv).Nodup ∧
        (∀ c, c ∈ commune_options rows rv cv ↔
          ∃ r ∈ rows, r.region = some rv ∧ r.cercle = some cv ∧ r.commune = some c)) ∧
    (∀ rows rv cv mv,
        idse_options rows rv cv mv =
          "No filter" ::
            sorted_unique_dropna ((filter_by_commune rows rv cv mv).map (·.idse_new)) ∧
        (idse_options rows rv cv mv).tail.Sorted (· ≤ ·) ∧
        (idse_options rows rv cv mv).tail.Nodup ∧
        (∀ c, c ∈ (idse_options rows rv cv mv).tail ↔
          ∃ r ∈ rows, r.region = some rv ∧ r.cercle = some cv ∧ r.commune = some mv ∧
            r.idse_new = some c)) := by
  refine ⟨fun rows rv => ⟨sud_sorted _, sud_nodup _, fun c => ?_⟩,
          fun rows rv cv => ⟨sud_sorted _, sud_nodup _, fun c => ?_⟩,
          fun rows rv cv mv => ⟨rfl, sud_sorted _, sud_nodup _, fun c => ?_⟩⟩
  · rw [cercle_options, sud_mem]
    constructor
    · intro h
      rcases List.mem_map.mp h with ⟨r, hr, hc⟩
      rcases (mem_filter_by_region rows rv r).mp hr with ⟨hmem, hreg⟩
      exact ⟨r, hmem, hreg, hc⟩
    · rintro ⟨r, hmem, hreg, hc⟩
      exact List.mem_map.mpr ⟨r, (mem_filter_by_region rows rv r).mpr ⟨hmem, hreg⟩, hc⟩
  · rw [commune_options, sud_mem]
    constructor
    · intro h
      rcases List.mem_map.mp h with ⟨r, hr, hc⟩
      rcases (mem_filter_by_cercle rows rv cv r).mp hr with ⟨hmem, hreg, hcer⟩
      exact ⟨r, hmem, hreg, hcer, hc⟩
    · rintro ⟨r, hmem, hreg, hcer, hc⟩
      exact List.mem_map.mpr ⟨r, (mem_filter_by_cercle rows rv cv r).mpr ⟨hmem, hreg, hcer⟩, hc⟩
  · rw [show (idse_options rows rv cv mv).tail =
        sorted_unique_dropna ((filter_by_commune rows rv cv mv).map (·.idse_new)) from rfl,
      sud_mem]
    constructor
    · intro h
      rcases List.mem_map.mp h with ⟨r, hr, hc⟩
      rcases (mem_filter_by_commune rows rv cv mv r).mp hr with ⟨hmem, hreg, hcer, hcom⟩
      exact ⟨r, hmem, hreg, hcer, hcom, hc⟩
    · rintro ⟨r, hmem, hreg, hcer, hcom, hc⟩
      exact List.mem_map.mpr
        ⟨r, (mem_filter_by_commune rows rv cv mv r).mpr ⟨hmem, hreg, hcer, hcom⟩, hc⟩

/-- C6: the point loader coerces LAT and LON to numeric, keeps exactly the
rows where both coerce, gives each surviving row the point geometry
`(lon, lat)` and the default geographic CRS EPSG:4326 (the row-wise
description is `load_point_row`); and on the example CSV with
LAT = ["10.1", "bad", "10.3"], LON = ["-5.1", "-5.2", "-5.3"] the result has
exactly the two rows with geometries (-5.1, 10.1) and (-5.3, 10.3). -/
theorem c6_point_loader :
    (∀ df : CSV, "LAT" ∈ df.cols → "LON" ∈ df.cols →
        load_points_from_github (some df) =
          some { cols := df.cols, rows := df.rows.filterMap (load_point_row df.cols),
                 crs := "EPSG:4326" }) ∧
    load_points_from_github (some exampleCSV) =
      some { cols := ["LAT", "LON"],
             rows := [{ lat := 101/10, lon := -(51/10), geometry := (-(51/10), 101/10),
                        cells := [Cell.num (101/10), Cell.num (-(51/10))] },
                      { lat := 103/10, lon := -(53/10), geometry := (-(53/10), 103/10),
                        cells := [Cell.num (103/10), Cell.num (-(53/10))] }],
             crs := "EPSG:4326" } := by
  constructor
  · intro df hlat hlon
    simp only [load_points_from_github, CSV.col, if_pos (And.intro hlat hlon)]
    rw [load_points_rows_eq]
  · simp [load_points_from_github, exampleCSV, to_numeric_col, CSV.col, cellAt, setCellAt,
          to_numeric_cell, parseDecimalQ, parseUnsignedQ, parseNatDigits]
    norm_num

/-- Witness for C6: the general loader description applied to the example
CSV, whose LAT and LON columns are present. -/
theorem c6_point_loader_witness :
    load_points_from_github (some exampleCSV) =
      some { cols := exampleCSV.cols,
             rows := exampleCSV.rows.filterMap (load_point_row exampleCSV.cols),
             crs := "EPSG:4326" } :=
  c6_point_loader.1 exampleCSV (by decide) (by decide)

/-- C7: the polygon loader keeps exactly the rows whose geometry is valid
and non-empty, so the resulting length is the original length minus the
number of invalid-or-empty rows; concretely, a two-row table with one
invalid row loads to a one-row table. -/
theorem c7_invalid_rows_dropped :
    (∀ rows : List SERow, (load_se_data_rows rows).length =
        rows.length - rows.countP (fun r => !(r.is_valid && !r.is_empty))) ∧
    (∀ rows r, r ∈ load_se_data_rows rows ↔
        (r ∈ rows ∧ r.is_valid = true ∧ r.is_empty = false)) ∧
    (load_se_data_rows [seRowA, seRowBad]).length = [seRowA, seRowBad].length - 1 := by
  refine ⟨fun rows => length_filter_sub _ rows, fun rows r => ?_, rfl⟩
  simp [load_se_data_rows, List.mem_filter]

/-- C8: the spatial aggregator fabricates no points — every output row pairs
a row of the input point table — and the output is empty whenever the
polygon frame is empty or absent, whatever the point table holds. -/
theorem c8_subset_and_empty :
    (∀ ps gs pred pr, pr ∈ (safe_sjoin (some ps) (some gs) pred).rows → pr.1 ∈ ps.rows) ∧
    (∀ points gs pred, gs.rows = [] → (safe_sjoin points (some gs) pred).rows = []) ∧
    (∀ points pred, (safe_sjoin points none pred).rows = []) := by
  refine ⟨fun ps gs pred pr h => ((mem_safe_sjoin_rows ps gs pred pr).mp h).1,
          fun points gs pred h => ?_, fun points pred => ?_⟩
  · cases points with
    | none => rfl
    | some ps =>
        simp only [safe_sjoin]
        rw [if_pos (Or.inr h)]
  · cases points <;> rfl

/-- Witness for C8: a one-point table joined against an empty polygon frame
yields no rows. -/
theorem c8_subset_and_empty_witness :
    (safe_sjoin (some samplePoints) (some emptySEFrame) "intersects").rows = [] :=
  c8_subset_and_empty.2.1 (some samplePoints) emptySEFrame "intersects" rfl

/-- C9: the numeric coercion used by the loader is idempotent — a column
whose cells are already numeric is returned unchanged, and coercing twice
is the same as coercing once. -/
theorem c9_coercion_idempotent :
    (∀ l : List Cell, l.all Cell.isNum = true → to_numeric_col l = l) ∧
    (∀ l : List Cell, to_numeric_col (to_numeric_col l) = to_numeric_col l) := by
  constructor
  · intro l h
    induction l with
    | nil => rfl
    | cons c cs ih =>
        simp only [List.all_cons, Bool.and_eq_true] at h
        cases c with
        | num q =>
            have h2 := ih h.2
            simp only [to_numeric_col, List.map_cons] at h2 ⊢
            rw [h2]
            rfl
        | str s => simp [Cell.isNum] at h
        | null => simp [Cell.isNum] at h
  · intro l
    simp only [to_numeric_col, List.map_map]
    congr 1
    funext c
    cases c with
    | num q => rfl
    | null => rfl
    | str s =>
        simp only [Function.comp_apply, to_numeric_cell]
        cases parseDecimalQ s <;> rfl

/-- Witness for C9: an already-numeric two-cell column is unchanged. -/
theorem c9_coercion_idempotent_witness :
    to_numeric_col [Cell.num 1, Cell.num 2] = [Cell.num 1, Cell.num 2] :=
  c9_coercion_idempotent.1 [Cell.num 1, Cell.num 2] (by decide)

/-- C10: the point loader returns `None` rather than raising, both on a
fetch or parse failure (input `none`) and on any fetched CSV missing either
the LAT or the LON column; callers receive either a loaded GeoDataFrame or
`None` (the loader is a total function into an option type). -/
theorem c10_loader_none_on_failure :
    load_points_from_github none = none ∧
    (∀ df : CSV, ¬("LAT" ∈ df.cols ∧ "LON" ∈ df.cols) →
        load_points_from_github (some df) = none) := by
  refine ⟨rfl, fun df h => ?_⟩
  simp only [load_points_from_github]
  rw [if_neg h]

/-- Witness for C10: a CSV with a LAT column but no LON column loads to
`None`. -/
theorem c10_loader_none_on_failure_witness :
    load_points_from_github (some noLonCSV) = none :=
  c10_loader_none_on_failure.2 noLonCSV (by decide)

end AGIS
